import Mathlib

/-!
# Verification of the BTR PropFlip investment engine

Shallow embedding, over `ℚ`, of the deterministic calculation core of the
`btr-propflip` repository: the stamp-duty calculators, the refurbishment /
GDV / rental / financing / profit pipeline of
`src/components/investment_calculator.py`, the maximum-purchase-price binary
search, the component scorers and score aggregators of
`scripts/btr_report_generator.py`, `scripts/fixed_btr_report_generator.py`
and `src/utils/data_processor.py`.

Python semantics conventions used throughout:
* money / float arithmetic is embedded as exact `ℚ` arithmetic;
* a Python expression that raises (`ZeroDivisionError`, `TypeError`,
  `KeyError`, `ValueError`) is embedded as `none` in an `Option` result;
* `int(x)` (truncation towards zero) is `pyInt`, `round(x)`
  (round-half-to-even) is `pyRound`;
* a dictionary key that may be absent is an `Option` field, with the
  `.get(key, default)` read embedded via `Option.getD`.
-/

/-- Python `int(x)`: truncation of a rational towards zero. -/
def pyInt (q : ℚ) : ℤ := if 0 ≤ q then ⌊q⌋ else ⌈q⌉

/-- Python 3 `round(x)` to an integer: round half to even (the half-way
case picks whichever of `f`, `f + 1` is even). -/
def pyRound (q : ℚ) : ℤ :=
  let f : ℤ := ⌊q⌋
  let r : ℚ := q - f
  if r < 1/2 then f
  else if 1/2 < r then f + 1
  else if f % 2 = 0 then f else f + 1

/-! ## Stamp duty

Two distinct implementations exist in the repository.

`sdlt_calc` embeds `BTRInvestmentCalculator._calculate_sdlt`
(`src/components/investment_calculator.py`, lines 126-151): a loop over the
threshold/rate table `[(125000, 2%), (250000, 5%), (925000, 10%),
(1500000, 12%)]` that on the `break` branch adds `remaining * rate` but does
*not* decrement `remaining`, after which the post-loop top-up
`if remaining > 0: sdlt += remaining * rates[-1]` fires again.  No surcharge
is applied.

`fixedStampDuty` embeds `calculate_stamp_duty`
(`scripts/fixed_btr_report_generator.py`, lines 343-370): correct band-by-band
taxation via `taxable = min(remaining, threshold - previous)`, a 12% rate on
any amount above the top threshold, a flat 3% surcharge on the full price for
BTR purchases, and a final `int(...)` truncation. -/

/-- The threshold/rate table shared by both stamp-duty implementations:
`sdlt_thresholds = [125000, 250000, 925000, 1500000]`,
`sdlt_rates = [0.02, 0.05, 0.10, 0.12]`. -/
def sdltBands : List (ℚ × ℚ) :=
  [(125000, 2/100), (250000, 5/100), (925000, 10/100), (1500000, 12/100)]

/-- Loop body of `_calculate_sdlt`: walks the `(threshold, rate)` table
carrying the previous threshold; returns the accumulated duty and the final
value of the `remaining` variable.  On the `else` (break) branch the code
adds `remaining * rate` and leaves `remaining` unchanged. -/
def sdltGo (prev remaining : ℚ) : List (ℚ × ℚ) → ℚ × ℚ
  | [] => (0, remaining)
  | (t, r) :: rest =>
    let band := t - prev
    if band < remaining then
      let out := sdltGo t (remaining - band) rest
      (band * r + out.1, out.2)
    else
      (remaining * r, remaining)

/-- `BTRInvestmentCalculator._calculate_sdlt(purchase_price)`. -/
def sdlt_calc (purchase_price : ℚ) : ℚ :=
  let out := sdltGo 0 purchase_price sdltBands
  if 0 < out.2 then out.1 + out.2 * (12/100) else out.1

/-- Loop body of `calculate_stamp_duty` in
`scripts/fixed_btr_report_generator.py`: `taxable = min(remaining,
threshold - previous_threshold)` is taxed and removed from `remaining`;
the loop breaks early once `remaining <= 0`. -/
def fixedGo (prev remaining : ℚ) : List (ℚ × ℚ) → ℚ × ℚ
  | [] => (0, remaining)
  | (t, r) :: rest =>
    if remaining ≤ 0 then (0, remaining)
    else
      let taxable := min remaining (t - prev)
      let out := fixedGo t (remaining - taxable) rest
      (taxable * r + out.1, out.2)

/-- `calculate_stamp_duty(purchase_price, is_btr=True)` in
`scripts/fixed_btr_report_generator.py`. -/
def fixedStampDuty (purchase_price : ℚ) (is_btr : Bool := true) : ℤ :=
  let out := fixedGo 0 purchase_price sdltBands
  let d := if 0 < out.2 then out.1 + out.2 * (12/100) else out.1
  let d := if is_btr then d + purchase_price * (3/100) else d
  pyInt d

/-- The progressive band formula stated by the spec: each band taxes only
the portion of the price lying within it; everything above £925k is taxed
at 12%. -/
def bandTax (p : ℚ) : ℚ :=
  (2/100) * min p 125000
    + (5/100) * min (max (p - 125000) 0) 125000
    + (10/100) * min (max (p - 250000) 0) 675000
    + (12/100) * max (p - 925000) 0

/-- The spurious extra tax added by `_calculate_sdlt`: whenever the loop
breaks with a partial final band (every price not exceeding the top
threshold), the untouched `remaining` (the portion of the price above the
previously completed threshold) is re-taxed at 12% by the post-loop top-up. -/
def sdltOverTax (p : ℚ) : ℚ :=
  (12/100) *
    (if p ≤ 125000 then p
     else if p ≤ 250000 then p - 125000
     else if p ≤ 925000 then p - 250000
     else if p ≤ 1500000 then p - 925000
     else 0)

theorem sdltGo_cons (prev remaining t r : ℚ) (rest : List (ℚ × ℚ)) :
    sdltGo prev remaining ((t, r) :: rest) =
      if t - prev < remaining then
        ((t - prev) * r + (sdltGo t (remaining - (t - prev)) rest).1,
          (sdltGo t (remaining - (t - prev)) rest).2)
      else (remaining * r, remaining) := rfl

theorem fixedGo_cons (prev remaining t r : ℚ) (rest : List (ℚ × ℚ)) :
    fixedGo prev remaining ((t, r) :: rest) =
      if remaining ≤ 0 then (0, remaining)
      else
        (min remaining (t - prev) * r
            + (fixedGo t (remaining - min remaining (t - prev)) rest).1,
          (fixedGo t (remaining - min remaining (t - prev)) rest).2) := rfl

/-- `_calculate_sdlt` equals the spec's progressive band formula *plus* the
spurious 12% re-taxation of the final partial band. -/
theorem sdlt_calc_eq (p : ℚ) (hp : 0 ≤ p) : sdlt_calc p = bandTax p + sdltOverTax p := by
  rcases le_or_lt p 125000 with h1 | h1
  · have e : sdltGo 0 p sdltBands = (p * (2/100), p) := by
      rw [sdltBands, sdltGo_cons, if_neg (by linarith : ¬ (125000:ℚ) - 0 < p)]
    have hm1 : min p (125000 : ℚ) = p := min_eq_left h1
    have hm2 : max (p - 125000) (0 : ℚ) = 0 := max_eq_right (by linarith)
    have hm3 : max (p - 250000) (0 : ℚ) = 0 := max_eq_right (by linarith)
    have hm4 : max (p - 925000) (0 : ℚ) = 0 := max_eq_right (by linarith)
    have hz2 : min (0 : ℚ) 125000 = 0 := by norm_num
    have hz3 : min (0 : ℚ) 675000 = 0 := by norm_num
    rw [bandTax, hm1, hm2, hm3, hm4, sdltOverTax, if_pos h1, hz2, hz3]
    simp only [sdlt_calc, e]
    rcases eq_or_lt_of_le hp with h0 | h0
    · rw [if_neg (by rw [← h0]; norm_num)]
      linarith
    · rw [if_pos h0]
      linarith
  · rcases le_or_lt p 250000 with h2 | h2
    · have e : sdltGo 0 p sdltBands =
          ((125000 - 0) * (2/100) + (p - (125000 - 0)) * (5/100), p - (125000 - 0)) := by
        rw [sdltBands, sdltGo_cons, if_pos (by linarith : (125000:ℚ) - 0 < p),
          sdltGo_cons, if_neg (by linarith : ¬ (250000:ℚ) - 125000 < p - (125000 - 0))]
      have hm1 : min p (125000 : ℚ) = 125000 := min_eq_right (by linarith)
      have hm2 : max (p - 125000) (0 : ℚ) = p - 125000 := max_eq_left (by linarith)
      have hm2' : min (p - 125000) (125000 : ℚ) = p - 125000 := min_eq_left (by linarith)
      have hm3 : max (p - 250000) (0 : ℚ) = 0 := max_eq_right (by linarith)
      have hm4 : max (p - 925000) (0 : ℚ) = 0 := max_eq_right (by linarith)
      have hz3 : min (0 : ℚ) 675000 = 0 := by norm_num
      rw [bandTax, hm1, hm2, hm2', hm3, hm4, sdltOverTax,
        if_neg (by linarith : ¬ p ≤ 125000), if_pos h2, hz3]
      simp only [sdlt_calc, e]
      rw [if_pos (by norm_num; linarith : (0:ℚ) < p - (125000 - 0))]
      linarith
    · rcases le_or_lt p 925000 with h3 | h3
      · have e : sdltGo 0 p sdltBands =
            ((125000 - 0) * (2/100) + ((250000 - 125000) * (5/100)
              + (p - (125000 - 0) - (250000 - 125000)) * (10/100)),
              p - (125000 - 0) - (250000 - 125000)) := by
          rw [sdltBands, sdltGo_cons, if_pos (by linarith : (125000:ℚ) - 0 < p),
            sdltGo_cons, if_pos (by linarith : (250000:ℚ) - 125000 < p - (125000 - 0)),
            sdltGo_cons,
            if_neg (by linarith :
              ¬ (925000:ℚ) - 250000 < p - (125000 - 0) - (250000 - 125000))]
        have hm1 : min p (125000 : ℚ) = 125000 := min_eq_right (by linarith)
        have hm2 : max (p - 125000) (0 : ℚ) = p - 125000 := max_eq_left (by linarith)
        have hm2' : min (p - 125000) (125000 : ℚ) = 125000 := min_eq_right (by linarith)
        have hm3 : max (p - 250000) (0 : ℚ) = p - 250000 := max_eq_left (by linarith)
        have hm3' : min (p - 250000) (675000 : ℚ) = p - 250000 := min_eq_left (by linarith)
        have hm4 : max (p - 925000) (0 : ℚ) = 0 := max_eq_right (by linarith)
        rw [bandTax, hm1, hm2, hm2', hm3, hm3', hm4, sdltOverTax,
          if_neg (by linarith : ¬ p ≤ 125000), if_neg (by linarith : ¬ p ≤ 250000),
          if_pos h3]
        simp only [sdlt_calc, e]
        rw [if_pos (by norm_num; linarith :
          (0:ℚ) < p - (125000 - 0) - (250000 - 125000))]
        linarith
      · rcases le_or_lt p 1500000 with h4 | h4
        · have e : sdltGo 0 p sdltBands =
              ((125000 - 0) * (2/100) + ((250000 - 125000) * (5/100)
                + ((925000 - 250000) * (10/100)
                  + (p - (125000 - 0) - (250000 - 125000) - (925000 - 250000)) * (12/100))),
                p - (125000 - 0) - (250000 - 125000) - (925000 - 250000)) := by
            rw [sdltBands, sdltGo_cons, if_pos (by linarith : (125000:ℚ) - 0 < p),
              sdltGo_cons, if_pos (by linarith : (250000:ℚ) - 125000 < p - (125000 - 0)),
              sdltGo_cons,
              if_pos (by linarith :
                (925000:ℚ) - 250000 < p - (125000 - 0) - (250000 - 125000)),
              sdltGo_cons,
              if_neg (by linarith : ¬ (1500000:ℚ) - 925000 <
                p - (125000 - 0) - (250000 - 125000) - (925000 - 250000))]
          have hm1 : min p (125000 : ℚ) = 125000 := min_eq_right (by linarith)
          have hm2 : max (p - 125000) (0 : ℚ) = p - 125000 := max_eq_left (by linarith)
          have hm2' : min (p - 125000) (125000 : ℚ) = 125000 := min_eq_right (by linarith)
          have hm3 : max (p - 250000) (0 : ℚ) = p - 250000 := max_eq_left (by linarith)
          have hm3' : min (p - 250000) (675000 : ℚ) = 675000 := min_eq_right (by linarith)
          have hm4 : max (p - 925000) (0 : ℚ) = p - 925000 := max_eq_left (by linarith)
          rw [bandTax, hm1, hm2, hm2', hm3, hm3', hm4, sdltOverTax,
            if_neg (by linarith : ¬ p ≤ 125000), if_neg (by linarith : ¬ p ≤ 250000),
            if_neg (by linarith : ¬ p ≤ 925000), if_pos h4]
          simp only [sdlt_calc, e]
          rw [if_pos (by norm_num; linarith :
            (0:ℚ) < p - (125000 - 0) - (250000 - 125000) - (925000 - 250000))]
          linarith
        · have e : sdltGo 0 p sdltBands =
              ((125000 - 0) * (2/100) + ((250000 - 125000) * (5/100)
                + ((925000 - 250000) * (10/100)
                  + ((1500000 - 925000) * (12/100) + 0))),
                p - (125000 - 0) - (250000 - 125000) - (925000 - 250000)
                  - (1500000 - 925000)) := by
            rw [sdltBands, sdltGo_cons, if_pos (by linarith : (125000:ℚ) - 0 < p),
              sdltGo_cons, if_pos (by linarith : (250000:ℚ) - 125000 < p - (125000 - 0)),
              sdltGo_cons,
              if_pos (by linarith :
                (925000:ℚ) - 250000 < p - (125000 - 0) - (250000 - 125000)),
              sdltGo_cons,
              if_pos (by linarith : (1500000:ℚ) - 925000 <
                p - (125000 - 0) - (250000 - 125000) - (925000 - 250000))]
            simp [sdltGo]
          have hm1 : min p (125000 : ℚ) = 125000 := min_eq_right (by linarith)
          have hm2 : max (p - 125000) (0 : ℚ) = p - 125000 := max_eq_left (by linarith)
          have hm2' : min (p - 125000) (125000 : ℚ) = 125000 := min_eq_right (by linarith)
          have hm3 : max (p - 250000) (0 : ℚ) = p - 250000 := max_eq_left (by linarith)
          have hm3' : min (p - 250000) (675000 : ℚ) = 675000 := min_eq_right (by linarith)
          have hm4 : max (p - 925000) (0 : ℚ) = p - 925000 := max_eq_left (by linarith)
          rw [bandTax, hm1, hm2, hm2', hm3, hm3', hm4, sdltOverTax,
            if_neg (by linarith : ¬ p ≤ 125000), if_neg (by linarith : ¬ p ≤ 250000),
            if_neg (by linarith : ¬ p ≤ 925000), if_neg (by linarith : ¬ p ≤ 1500000)]
          simp only [sdlt_calc, e]
          rw [if_pos (by norm_num; linarith : (0:ℚ) <
            p - (125000 - 0) - (250000 - 125000) - (925000 - 250000) - (1500000 - 925000))]
          linarith

/-- `calculate_stamp_duty` (fixed report generator) equals the spec's
progressive band formula plus the flat 3% BTR surcharge on the full price,
truncated to an integer. -/
theorem fixedStampDuty_eq (p : ℚ) (hp : 0 ≤ p) :
    fixedStampDuty p = ⌊bandTax p + p * (3/100)⌋ := by
  rcases eq_or_lt_of_le hp with h0 | h0
  · rw [← h0]
    norm_num [fixedStampDuty, fixedGo, sdltBands, bandTax, pyInt]
  rcases le_or_lt p 125000 with h1 | h1
  · have hq1 : min p ((125000:ℚ) - 0) = p := min_eq_left (by linarith)
    have e : fixedGo 0 p sdltBands = (p * (2/100) + 0, p - p) := by
      rw [sdltBands, fixedGo_cons, if_neg (by linarith : ¬ p ≤ 0), hq1,
        fixedGo_cons, if_pos (by linarith : p - p ≤ 0)]
    have hm1 : min p (125000 : ℚ) = p := min_eq_left h1
    have hm2 : max (p - 125000) (0 : ℚ) = 0 := max_eq_right (by linarith)
    have hm3 : max (p - 250000) (0 : ℚ) = 0 := max_eq_right (by linarith)
    have hm4 : max (p - 925000) (0 : ℚ) = 0 := max_eq_right (by linarith)
    have hz2 : min (0 : ℚ) 125000 = 0 := by norm_num
    have hz3 : min (0 : ℚ) 675000 = 0 := by norm_num
    rw [bandTax, hm1, hm2, hm3, hm4, hz2, hz3]
    simp only [fixedStampDuty, e]
    rw [if_neg (by linarith : ¬ (0:ℚ) < p - p), if_true, pyInt,
      if_pos (by linarith : (0:ℚ) ≤ p * (2/100) + 0 + p * (3/100))]
    congr 1
    ring
  · rcases le_or_lt p 250000 with h2 | h2
    · have hq1 : min p ((125000:ℚ) - 0) = 125000 - 0 := min_eq_right (by linarith)
      have hq2 : min (p - (125000 - 0)) ((250000:ℚ) - 125000) = p - (125000 - 0) :=
        min_eq_left (by linarith)
      have e : fixedGo 0 p sdltBands =
          ((125000 - 0) * (2/100) + ((p - (125000 - 0)) * (5/100) + 0),
            p - (125000 - 0) - (p - (125000 - 0))) := by
        rw [sdltBands, fixedGo_cons, if_neg (by linarith : ¬ p ≤ 0), hq1,
          fixedGo_cons, if_neg (by linarith : ¬ p - (125000 - 0) ≤ 0), hq2,
          fixedGo_cons, if_pos (by linarith : p - (125000 - 0) - (p - (125000 - 0)) ≤ 0)]
      have hm1 : min p (125000 : ℚ) = 125000 := min_eq_right (by linarith)
      have hm2 : max (p - 125000) (0 : ℚ) = p - 125000 := max_eq_left (by linarith)
      have hm2' : min (p - 125000) (125000 : ℚ) = p - 125000 := min_eq_left (by linarith)
      have hm3 : max (p - 250000) (0 : ℚ) = 0 := max_eq_right (by linarith)
      have hm4 : max (p - 925000) (0 : ℚ) = 0 := max_eq_right (by linarith)
      have hz3 : min (0 : ℚ) 675000 = 0 := by norm_num
      rw [bandTax, hm1, hm2, hm2', hm3, hm4, hz3]
      simp only [fixedStampDuty, e]
      rw [if_neg (by linarith : ¬ (0:ℚ) < p - (125000 - 0) - (p - (125000 - 0))),
        if_true, pyInt,
        if_pos (by linarith :
          (0:ℚ) ≤ (125000 - 0) * (2/100) + ((p - (125000 - 0)) * (5/100) + 0)
            + p * (3/100))]
      congr 1
      ring
    · rcases le_or_lt p 925000 with h3 | h3
      · have hq1 : min p ((125000:ℚ) - 0) = 125000 - 0 := min_eq_right (by linarith)
        have hq2 : min (p - (125000 - 0)) ((250000:ℚ) - 125000) = 250000 - 125000 :=
          min_eq_right (by linarith)
        have hq3 : min (p - (125000 - 0) - (250000 - 125000)) ((925000:ℚ) - 250000) =
            p - (125000 - 0) - (250000 - 125000) := min_eq_left (by linarith)
        have e : fixedGo 0 p sdltBands =
            ((125000 - 0) * (2/100) + ((250000 - 125000) * (5/100)
              + ((p - (125000 - 0) - (250000 - 125000)) * (10/100) + 0)),
              p - (125000 - 0) - (250000 - 125000)
                - (p - (125000 - 0) - (250000 - 125000))) := by
          rw [sdltBands, fixedGo_cons, if_neg (by linarith : ¬ p ≤ 0), hq1,
            fixedGo_cons, if_neg (by linarith : ¬ p - (125000 - 0) ≤ 0), hq2,
            fixedGo_cons,
            if_neg (by linarith : ¬ p - (125000 - 0) - (250000 - 125000) ≤ 0), hq3,
            fixedGo_cons,
            if_pos (by linarith : p - (125000 - 0) - (250000 - 125000)
              - (p - (125000 - 0) - (250000 - 125000)) ≤ 0)]
        have hm1 : min p (125000 : ℚ) = 125000 := min_eq_right (by linarith)
        have hm2 : max (p - 125000) (0 : ℚ) = p - 125000 := max_eq_left (by linarith)
        have hm2' : min (p - 125000) (125000 : ℚ) = 125000 := min_eq_right (by linarith)
        have hm3 : max (p - 250000) (0 : ℚ) = p - 250000 := max_eq_left (by linarith)
        have hm3' : min (p - 250000) (675000 : ℚ) = p - 250000 := min_eq_left (by linarith)
        have hm4 : max (p - 925000) (0 : ℚ) = 0 := max_eq_right (by linarith)
        rw [bandTax, hm1, hm2, hm2', hm3, hm3', hm4]
        simp only [fixedStampDuty, e]
        rw [if_neg (by linarith : ¬ (0:ℚ) < p - (125000 - 0) - (250000 - 125000)
            - (p - (125000 - 0) - (250000 - 125000))),
          if_true, pyInt,
          if_pos (by linarith :
            (0:ℚ) ≤ (125000 - 0) * (2/100) + ((250000 - 125000) * (5/100)
              + ((p - (125000 - 0) - (250000 - 125000)) * (10/100) + 0)) + p * (3/100))]
        congr 1
        ring
      · rcases le_or_lt p 1500000 with h4 | h4
        · have hq1 : min p ((125000:ℚ) - 0) = 125000 - 0 := min_eq_right (by linarith)
          have hq2 : min (p - (125000 - 0)) ((250000:ℚ) - 125000) = 250000 - 125000 :=
            min_eq_right (by linarith)
          have hq3 : min (p - (125000 - 0) - (250000 - 125000)) ((925000:ℚ) - 250000) =
              925000 - 250000 := min_eq_right (by linarith)
          have hq4 : min (p - (125000 - 0) - (250000 - 125000) - (925000 - 250000))
              ((1500000:ℚ) - 925000) =
              p - (125000 - 0) - (250000 - 125000) - (925000 - 250000) :=
            min_eq_left (by linarith)
          have e : fixedGo 0 p sdltBands =
              ((125000 - 0) * (2/100) + ((250000 - 125000) * (5/100)
                + ((925000 - 250000) * (10/100)
                  + ((p - (125000 - 0) - (250000 - 125000) - (925000 - 250000))
                      * (12/100) + 0))),
                p - (125000 - 0) - (250000 - 125000) - (925000 - 250000)
                  - (p - (125000 - 0) - (250000 - 125000) - (925000 - 250000))) := by
            rw [sdltBands, fixedGo_cons, if_neg (by linarith : ¬ p ≤ 0), hq1,
              fixedGo_cons, if_neg (by linarith : ¬ p - (125000 - 0) ≤ 0), hq2,
              fixedGo_cons,
              if_neg (by linarith : ¬ p - (125000 - 0) - (250000 - 125000) ≤ 0), hq3,
              fixedGo_cons,
              if_neg (by linarith :
                ¬ p - (125000 - 0) - (250000 - 125000) - (925000 - 250000) ≤ 0), hq4]
            simp [fixedGo]
          have hm1 : min p (125000 : ℚ) = 125000 := min_eq_right (by linarith)
          have hm2 : max (p - 125000) (0 : ℚ) = p - 125000 := max_eq_left (by linarith)
          have hm2' : min (p - 125000) (125000 : ℚ) = 125000 := min_eq_right (by linarith)
          have hm3 : max (p - 250000) (0 : ℚ) = p - 250000 := max_eq_left (by linarith)
          have hm3' : min (p - 250000) (675000 : ℚ) = 675000 := min_eq_right (by linarith)
          have hm4 : max (p - 925000) (0 : ℚ) = p - 925000 := max_eq_left (by linarith)
          rw [bandTax, hm1, hm2, hm2', hm3, hm3', hm4]
          simp only [fixedStampDuty, e]
          rw [if_neg (by linarith :
              ¬ (0:ℚ) < p - (125000 - 0) - (250000 - 125000) - (925000 - 250000)
                - (p - (125000 - 0) - (250000 - 125000) - (925000 - 250000))),
            if_true, pyInt,
            if_pos (by linarith :
              (0:ℚ) ≤ (125000 - 0) * (2/100) + ((250000 - 125000) * (5/100)
                + ((925000 - 250000) * (10/100)
                  + ((p - (125000 - 0) - (250000 - 125000) - (925000 - 250000))
                      * (12/100) + 0))) + p * (3/100))]
          congr 1
          ring
        · have hq1 : min p ((125000:ℚ) - 0) = 125000 - 0 := min_eq_right (by linarith)
          have hq2 : min (p - (125000 - 0)) ((250000:ℚ) - 125000) = 250000 - 125000 :=
            min_eq_right (by linarith)
          have hq3 : min (p - (125000 - 0) - (250000 - 125000)) ((925000:ℚ) - 250000) =
              925000 - 250000 := min_eq_right (by linarith)
          have hq4 : min (p - (125000 - 0) - (250000 - 125000) - (925000 - 250000))
              ((1500000:ℚ) - 925000) = 1500000 - 925000 := min_eq_right (by linarith)
          have e : fixedGo 0 p sdltBands =
              ((125000 - 0) * (2/100) + ((250000 - 125000) * (5/100)
                + ((925000 - 250000) * (10/100)
                  + ((1500000 - 925000) * (12/100) + 0))),
                p - (125000 - 0) - (250000 - 125000) - (925000 - 250000)
                  - (1500000 - 925000)) := by
            rw [sdltBands, fixedGo_cons, if_neg (by linarith : ¬ p ≤ 0), hq1,
              fixedGo_cons, if_neg (by linarith : ¬ p - (125000 - 0) ≤ 0), hq2,
              fixedGo_cons,
              if_neg (by linarith : ¬ p - (125000 - 0) - (250000 - 125000) ≤ 0), hq3,
              fixedGo_cons,
              if_neg (by linarith :
                ¬ p - (125000 - 0) - (250000 - 125000) - (925000 - 250000) ≤ 0), hq4]
            simp [fixedGo]
          have hm1 : min p (125000 : ℚ) = 125000 := min_eq_right (by linarith)
          have hm2 : max (p - 125000) (0 : ℚ) = p - 125000 := max_eq_left (by linarith)
          have hm2' : min (p - 125000) (125000 : ℚ) = 125000 := min_eq_right (by linarith)
          have hm3 : max (p - 250000) (0 : ℚ) = p - 250000 := max_eq_left (by linarith)
          have hm3' : min (p - 250000) (675000 : ℚ) = 675000 := min_eq_right (by linarith)
          have hm4 : max (p - 925000) (0 : ℚ) = p - 925000 := max_eq_left (by linarith)
          rw [bandTax, hm1, hm2, hm2', hm3, hm3', hm4]
          simp only [fixedStampDuty, e]
          rw [if_pos (by linarith :
              (0:ℚ) < p - (125000 - 0) - (250000 - 125000) - (925000 - 250000)
                - (1500000 - 925000)),
            if_true, pyInt,
            if_pos (by linarith :
              (0:ℚ) ≤ (125000 - 0) * (2/100) + ((250000 - 125000) * (5/100)
                + ((925000 - 250000) * (10/100)
                  + ((1500000 - 925000) * (12/100) + 0)))
                + (p - (125000 - 0) - (250000 - 125000) - (925000 - 250000)
                  - (1500000 - 925000)) * (12/100) + p * (3/100))]
          congr 1
          ring

/-- C1: as stated the claim is false for `_calculate_sdlt`
(`src/components/investment_calculator.py`): it adds no 3% surcharge, and its
broken `break`/top-up interaction double-taxes the final partial band, so
`_calculate_sdlt(250000) = 23750`, not the claimed `16250`. -/
theorem claim_C1_counterexample :
    sdlt_calc 250000 = 23750 ∧ (23750 : ℚ) ≠ 16250 := by
  constructor
  · norm_num [sdlt_calc, sdltGo, sdltBands]
  · norm_num

/-- C1 (amended): `calculate_stamp_duty` in
`scripts/fixed_btr_report_generator.py` taxes every price `p ≥ 0` cumulatively
band-by-band at the progressive bands and adds the flat 3% surcharge on the
full price, truncating the result to an integer; in particular it yields
16250 at 250000 (band tax 8750 plus 7500 surcharge) and 0 at 0.
`_calculate_sdlt` in `src/components/investment_calculator.py` applies no
surcharge and additionally re-taxes the final partial band at 12%
(`sdltOverTax`), yielding 23750 at 250000. -/
theorem claim_C1_amended :
    (∀ p : ℚ, 0 ≤ p →
      fixedStampDuty p = ⌊bandTax p + p * (3/100)⌋ ∧
      sdlt_calc p = bandTax p + sdltOverTax p) ∧
    fixedStampDuty 250000 = 16250 ∧ fixedStampDuty 0 = 0 ∧
    bandTax 250000 = 8750 ∧ sdlt_calc 250000 = 23750 := by
  refine ⟨fun p hp => ⟨fixedStampDuty_eq p hp, sdlt_calc_eq p hp⟩, ?_, ?_, ?_, ?_⟩
  · norm_num [fixedStampDuty, fixedGo, sdltBands, pyInt]
  · norm_num [fixedStampDuty, fixedGo, sdltBands, pyInt]
  · norm_num [bandTax]
  · norm_num [sdlt_calc, sdltGo, sdltBands]

/-- C1 witness: the amended claim instantiated at the concrete price 130000. -/
theorem claim_C1_witness :
    (0 : ℚ) ≤ 130000 ∧
    fixedStampDuty 130000 = ⌊bandTax 130000 + 130000 * (3/100)⌋ ∧
    sdlt_calc 130000 = bandTax 130000 + sdltOverTax 130000 :=
  ⟨by norm_num, (claim_C1_amended.1 130000 (by norm_num)).1,
    (claim_C1_amended.1 130000 (by norm_num)).2⟩

/-! ## BTR score aggregation (`scripts/btr_report_generator.py`)

`calculate_overall_btr_score(score_components)` (lines 775-803): weights
`{amenities: 0.20, rental: 0.25, property_value: 0.20, growth: 0.20,
efficiency: 0.15}`; components that are `None` (or absent) contribute to
neither the weighted total nor the total weight; if the total weight is zero
the base score 50 is returned, otherwise `min(max(int(total/total_weight),
0), 100)`. -/

/-- The five component scores handed to `calculate_overall_btr_score`;
`none` embeds a component that is absent or `None`. -/
structure ScoreComponents where
  amenities : Option ℚ
  rental : Option ℚ
  property_value : Option ℚ
  growth : Option ℚ
  efficiency : Option ℚ

/-- The component/weight pairs iterated by `calculate_overall_btr_score`. -/
def weightedItems (sc : ScoreComponents) : List (Option ℚ × ℚ) :=
  [(sc.amenities, 20/100), (sc.rental, 25/100), (sc.property_value, 20/100),
    (sc.growth, 20/100), (sc.efficiency, 15/100)]

/-- `calculate_overall_btr_score(score_components)`. -/
def calculate_overall_btr_score (sc : ScoreComponents) : ℤ :=
  let total_score := (weightedItems sc).foldl
    (fun acc it => match it.1 with | some s => acc + s * it.2 | none => acc) 0
  let total_weight := (weightedItems sc).foldl
    (fun acc it => match it.1 with | some _ => acc + it.2 | none => acc) 0
  if total_weight = 0 then 50
  else min (max (pyInt (total_score / total_weight)) 0) 100

/-- The aggregation the spec describes: the weighted average
`sum(score_i * weight_i) / sum(weight_i for i present)` over the *present*
components only, the base score 50 when no component is present, clamped to
`[0, 100]` as an integer. -/
def specAggregate (sc : ScoreComponents) : ℤ :=
  let present : List (ℚ × ℚ) := (weightedItems sc).filterMap
    (fun it => match it.1 with | some s => some (s, it.2) | none => none)
  if present = [] then 50
  else
    min (max (pyInt ((present.map fun x => x.1 * x.2).sum
      / (present.map fun x => x.2).sum)) 0) 100

set_option linter.unnecessarySeqFocus false in
set_option maxHeartbeats 1000000 in
/-- `calculate_overall_btr_score` is exactly the spec's weighted average over
present components — missing components are excluded from numerator and
denominator alike — with aggregate 80 when only `{rental: 80}` is present and
the base score 50 when no component is present. -/
theorem overall_aggregator_eq_spec :
    (∀ sc : ScoreComponents, calculate_overall_btr_score sc = specAggregate sc) ∧
    calculate_overall_btr_score ⟨none, some 80, none, none, none⟩ = 80 ∧
    calculate_overall_btr_score ⟨none, none, none, none, none⟩ = 50 := by
  refine ⟨?_, ?_, ?_⟩
  · rintro ⟨a, r, v, g, e⟩
    cases a <;> cases r <;> cases v <;> cases g <;> cases e <;>
      simp only [calculate_overall_btr_score, specAggregate, weightedItems,
        List.foldl_cons, List.foldl_nil, List.filterMap_cons, List.filterMap_nil,
        List.map_cons, List.map_nil, List.sum_cons, List.sum_nil] <;>
      norm_num <;> (try rw [if_neg (List.cons_ne_nil _ _)]) <;>
      (try (congr 3 <;> ring))
  · norm_num [calculate_overall_btr_score, weightedItems, pyInt]
  · norm_num [calculate_overall_btr_score, weightedItems]

/-! ## The location-score aggregation
(`src/components/location_score_algorithm.py`, lines 30-83)

`calculate_location_score` seeds its score/weight dictionaries with
`scores['base'] = 50`, `weights['base'] = 1.0`, then — for each external
dataset that was supplied — stores the score returned by the corresponding
component scorer with its weight (amenities 0.2, rental 0.25,
property_value 0.2, growth 0.2, efficiency 0.15), and finally computes
`int(round(min(max(sum(scores[k]*weights[k]) / total_weight, 0), 100)))`.
The five scorer invocations (lines 42-70) are abstracted here as the
optional component scores they produce: `some s` embeds a supplied dataset
whose scorer returned `s`, `none` an absent dataset. -/

/-- The aggregation of `calculate_location_score`: the base entry is the
fold initialiser (score 50, weight 1.0), always present. -/
def calculate_location_score (sc : ScoreComponents) : ℤ :=
  let total_weight := (weightedItems sc).foldl
    (fun acc it => match it.1 with | some _ => acc + it.2 | none => acc) 1
  let weighted_sum := (weightedItems sc).foldl
    (fun acc it => match it.1 with | some s => acc + s * it.2 | none => acc) (50 * 1)
  pyRound (min (max (weighted_sum / total_weight) 0) 100)

/-- What the location path actually computes, written as the amended claim
states it: the base score 50 with weight 1.0 is blended into the weighted
average of the present components, then clamped and rounded. -/
def specLocationAggregate (sc : ScoreComponents) : ℤ :=
  let present : List (ℚ × ℚ) := (weightedItems sc).filterMap
    (fun it => match it.1 with | some s => some (s, it.2) | none => none)
  pyRound (min (max ((50 + (present.map fun x => x.1 * x.2).sum)
    / (1 + (present.map fun x => x.2).sum)) 0) 100)

set_option linter.unnecessarySeqFocus false in
set_option maxHeartbeats 1000000 in
/-- The location-score aggregation equals the base-blended weighted average
for every presence pattern. -/
theorem location_aggregator_eq_spec :
    ∀ sc : ScoreComponents, calculate_location_score sc = specLocationAggregate sc := by
  rintro ⟨a, r, v, g, e⟩
  cases a <;> cases r <;> cases v <;> cases g <;> cases e <;>
    simp only [calculate_location_score, specLocationAggregate, weightedItems,
      List.foldl_cons, List.foldl_nil, List.filterMap_cons, List.filterMap_nil,
      List.map_cons, List.map_nil, List.sum_cons, List.sum_nil] <;>
    norm_num <;> (try (congr 3 <;> ring))

/-- C2: false as stated for the claim's second source path —
`calculate_location_score` always blends the base component (score 50,
weight 1.0) into the average, so with only `{rental: 80}` present the
aggregate is `(50·1.0 + 80·0.25) / 1.25 = 56`, not the claimed 80. -/
theorem claim_C2_counterexample :
    calculate_location_score ⟨none, some 80, none, none, none⟩ = 56 ∧
    (56 : ℤ) ≠ 80 := by
  constructor
  · norm_num [calculate_location_score, weightedItems, pyRound]
  · decide

/-- C2 (amended): `calculate_overall_btr_score` — the §4.7 aggregator —
computes exactly `sum(score_i × weight_i) / sum(weight_i for i present)`,
excluding missing components from numerator and denominator alike, with
aggregate 80 when only `{rental: 80}` is present and the base score 50 when
no component is present.  The location-score path instead always blends a
base component of 50 with weight 1.0 into the average —
`(50 + Σ score_i·w_i) / (1 + Σ w_i)`, clamped to [0, 100] and rounded — so
only-rental-80 yields 56 there, and 50 when no dataset is present. -/
theorem claim_C2_amended :
    (∀ sc : ScoreComponents, calculate_overall_btr_score sc = specAggregate sc) ∧
    calculate_overall_btr_score ⟨none, some 80, none, none, none⟩ = 80 ∧
    calculate_overall_btr_score ⟨none, none, none, none, none⟩ = 50 ∧
    (∀ sc : ScoreComponents, calculate_location_score sc = specLocationAggregate sc) ∧
    calculate_location_score ⟨none, none, none, none, none⟩ = 50 := by
  refine ⟨overall_aggregator_eq_spec.1, overall_aggregator_eq_spec.2.1,
    overall_aggregator_eq_spec.2.2, location_aggregator_eq_spec, ?_⟩
  norm_num [calculate_location_score, weightedItems, pyRound]

/-! ## Score category mappings

Three different scoring paths assign a category label:
* `src/utils/data_processor.py::calculate_btr_score` lines 453-467
  (`dpCategory`),
* `scripts/btr_report_generator.py::get_score_rating` lines 886-897,
* `scripts/fixed_btr_report_generator.py::calculate_btr_score` lines 430-446
  (`fixedRating`). -/

/-- Category thresholds of `data_processor.calculate_btr_score`. -/
def dpCategory (n : ℤ) : String :=
  if n ≥ 80 then "excellent"
  else if n ≥ 70 then "good"
  else if n ≥ 60 then "above_average"
  else if n ≥ 50 then "average"
  else if n ≥ 40 then "below_average"
  else if n ≥ 30 then "poor"
  else "very_poor"

/-- The inclusive lower-bound category mapping stated by the spec. -/
def claimedCategory (n : ℤ) : String :=
  if n ≥ 80 then "excellent"
  else if n ≥ 70 then "good"
  else if n ≥ 60 then "above_average"
  else if n ≥ 50 then "average"
  else if n ≥ 40 then "below_average"
  else if n ≥ 30 then "poor"
  else "very_poor"

/-- `get_score_rating(score)` in `scripts/btr_report_generator.py`:
only five bands, everything below 50 is rated "Below Average". -/
def get_score_rating (score : ℚ) : String :=
  if score ≥ 80 then "Excellent"
  else if score ≥ 70 then "Good"
  else if score ≥ 60 then "Above Average"
  else if score ≥ 50 then "Average"
  else "Below Average"

/-- The rating block of `calculate_btr_score` in
`scripts/fixed_btr_report_generator.py`: thresholds 80/65/50/35. -/
def fixedRating (total_score : ℤ) : String :=
  if total_score ≥ 80 then "Excellent"
  else if total_score ≥ 65 then "Good"
  else if total_score ≥ 50 then "Average"
  else if total_score ≥ 35 then "Below Average"
  else "Poor"

/-- C6: the claimed seven-band mapping does not hold in every scoring path:
at score 25 the claim demands `very_poor`, but `get_score_rating` returns
"Below Average" (its lowest band) and the fixed report generator returns
"Poor". -/
theorem claim_C6_counterexample :
    claimedCategory 25 = "very_poor" ∧ get_score_rating 25 = "Below Average" ∧
    fixedRating 25 = "Poor" ∧ ("Below Average" : String) ≠ "very_poor" := by
  refine ⟨by decide, ?_, by decide, by decide⟩
  norm_num [get_score_rating]

/-- C6 (amended): the inclusive lower-bound breakpoints ≥80 excellent,
≥70 good, ≥60 above_average, ≥50 average, ≥40 below_average, ≥30 poor, else
very_poor hold exactly in the `data_processor.calculate_btr_score` path;
`get_score_rating` instead uses only the ≥80/≥70/≥60/≥50 breakpoints with
everything below 50 rated "Below Average", and the fixed report generator
uses ≥80/≥65/≥50/≥35/else with five labels. -/
theorem claim_C6_amended : ∀ n : ℤ, dpCategory n = claimedCategory n :=
  fun _ => rfl

/-! ## `data_processor.calculate_btr_score` (`src/utils/data_processor.py`)

Five sub-scores (yield 0-25, property type 0-20, area 0-20, growth 0-20,
renovation 0-15) summed and normalised by `int(round(total / 100 * 100))`.
The renovation score `min(15, improvement / 2)` has no lower clamp, so a
negative EPC improvement drives the overall score below 0. -/

/-- The `property_data` dictionary fields read by
`data_processor.calculate_btr_score`. -/
structure DpProperty where
  estimated_value : ℚ
  property_type : String
  price_history : List ℚ
  epc_efficiency : Option ℚ
  potential_epc_efficiency : Option ℚ

/-- `property_type_scores.get(property_type, 10)`. -/
def dpPropertyTypeScore (t : String) : ℚ :=
  if t = "D" then 20
  else if t = "S" then 18
  else if t = "T" then 15
  else if t = "F" then 10
  else if t = "O" then 5
  else 10

/-- `data_processor.calculate_btr_score(property_data, rental_data,
area_data)`, returning the `(overall_score, category)` pair; `none` embeds
the `ZeroDivisionError` raised when the oldest price in the history is 0. -/
def dp_calculate_btr_score (p : DpProperty) (annual_rent area_score : ℚ) :
    Option (ℤ × String) :=
  let yield_score : ℚ :=
    if 0 < p.estimated_value ∧ 0 < annual_rent then
      min 25 (max 0 ((annual_rent / p.estimated_value - 3/100) * 1250))
    else 10
  let ptype_score := dpPropertyTypeScore p.property_type
  let area := min 20 (area_score * (2/10))
  let growth : Option ℚ :=
    if 1 < p.price_history.length then
      let oldest := p.price_history.headD 0
      let newest := p.price_history.getLastD 0
      if oldest = 0 then none
      else some (min 20 ((10 + min 20 (max 0 ((newest / oldest - 1) * 200))) / 2))
    else some (min 20 10)
  let rs1 : ℚ :=
    match p.epc_efficiency, p.potential_epc_efficiency with
    | some cur, some pot => min 15 ((pot - cur) / 2)
    | _, _ => 15/2
  let rs2 :=
    if p.property_type = "D" ∨ p.property_type = "S" ∨ p.property_type = "T" then
      min 15 (rs1 + 5/2)
    else rs1
  let renovation := min 15 rs2
  match growth with
  | none => none
  | some g =>
    let total := yield_score + ptype_score + area + g + renovation
    let normalized := pyRound (total / 100 * 100)
    some (normalized, dpCategory normalized)

/-- C5: the 0-100 invariant fails: with zero estimated value, property type
"O", no price history, a zero area score and EPC efficiency 102 against
potential 0 (a negative improvement of -102), the overall score is -26 —
below 0 — even though the function's own docstring promises a 0-100 score.
The category mapping still fires, labelling it `very_poor`. -/
theorem claim_C5_theorem :
    dp_calculate_btr_score ⟨0, "O", [], some 102, some 0⟩ 0 0 =
      some (-26, "very_poor") ∧ (-26 : ℤ) < 0 := by
  constructor
  · have h1 : pyRound ((-26 : ℚ) / 100 * 100) = -26 := by norm_num [pyRound]
    simp [dp_calculate_btr_score, dpPropertyTypeScore]
    norm_num [dpCategory, pyRound]
  · decide

/-! ## The investment calculator (`src/components/investment_calculator.py`)

`BTRInvestmentCalculator` with its default settings: cost benchmarks,
refurbishment scenarios, finance settings, transaction costs and rental
settings, and the staged calculators
`calculate_purchase_costs → calculate_refurb_costs → calculate_gdv →
calculate_financing_costs → calculate_selling_costs → calculate_profit`,
plus `calculate_rental_income` and the binary search
`calculate_max_purchase_price`. -/

/-- List-based check that `s` ends with the suffix `suf`
(Python `str.endswith`). -/
def startsWithList : List Char → List Char → Bool
  | _, [] => true
  | [], _ :: _ => false
  | a :: as, b :: bs => a = b && startsWithList as bs

/-- `s.endswith(suf)`. -/
def strEndsWith (s suf : String) : Bool :=
  startsWithList s.toList.reverse suf.toList.reverse

/-- `self.cost_benchmarks`. -/
def cost_benchmarks : List (String × ℚ) :=
  [("light_refurb_psf", 75), ("medium_refurb_psf", 120), ("conversion_psf", 180),
   ("new_build_psf", 225), ("hmo_per_room", 30000), ("loft_extension_psf", 200),
   ("basement_psf", 250), ("kitchen", 15000), ("bathroom", 7500),
   ("rewiring", 5000), ("replumbing", 6000), ("painting_decorating_psf", 12),
   ("flooring_psf", 25), ("windows_per_unit", 800), ("roof_repair", 8000),
   ("new_roof", 15000), ("landscaping", 5000), ("driveway", 4500),
   ("new_boiler", 3500), ("new_heating_system", 8000)]

/-- One entry of `self.scenarios`: the value-uplift key is either a
percentage (`value_uplift_pct`) or a per-square-foot rate
(`value_uplift_psf`); a missing key is `none`. -/
structure ScenarioDef where
  description : String
  costs : List String
  value_uplift_pct : Option ℚ
  value_uplift_psf : Option ℚ

/-- `self.scenarios.get(key)`. -/
def scenarios (key : String) : Option ScenarioDef :=
  if key = "cosmetic_refurb" then
    some ⟨"Cosmetic refurbishment only (painting, decorating, minor works)",
      ["painting_decorating_psf", "flooring_psf"], some (10/100), none⟩
  else if key = "light_refurb" then
    some ⟨"Light refurbishment (cosmetic + kitchen/bathroom)",
      ["light_refurb_psf"], some (15/100), none⟩
  else if key = "medium_refurb" then
    some ⟨"Medium refurbishment (light + some reconfiguration)",
      ["medium_refurb_psf"], some (25/100), none⟩
  else if key = "full_refurb" then
    some ⟨"Full refurbishment (gutting and rebuilding interior)",
      ["conversion_psf"], some (35/100), none⟩
  else if key = "extension" then
    some ⟨"Extending the property (e.g. loft conversion, rear extension)",
      ["loft_extension_psf"], none, some 550⟩
  else none

/-- `self.finance_settings` (also the shape of custom overrides). -/
structure FinanceSettings where
  interest_rate : ℚ
  loan_to_cost : ℚ
  term_months : ℚ
  arrangement_fee_pct : ℚ
  exit_fee_pct : ℚ
  legal_costs : ℚ

/-- The default finance settings: 14% p.a. interest, 100% loan-to-cost,
12-month term, 1% arrangement fee, 1% exit fee, £2,000 legal costs. -/
def finance_settings : FinanceSettings := ⟨14/100, 1, 12, 1/100, 1/100, 2000⟩

/-- The `property_info` dictionary: each field models one key that may be
absent. -/
structure PropertyInfo where
  purchase_price : Option ℚ
  square_feet : Option ℚ
  rooms : Option ℚ
  extension_sqft : Option ℚ
  property_type : Option String
  is_leasehold : Option Bool

/-- Return value of `calculate_purchase_costs`. -/
structure PurchaseCosts where
  purchase_price : ℚ
  legal_costs : ℚ
  survey_costs : ℚ
  stamp_duty : ℚ
  total_purchase_costs : ℚ
  transaction_costs_pct : ℚ

/-- `calculate_purchase_costs(purchase_price)`; `none` embeds the
`ZeroDivisionError` of `transaction_costs_pct = total / purchase_price`
at price 0. -/
def calculate_purchase_costs (purchase_price : ℚ) : Option PurchaseCosts :=
  let legal_cost := max (purchase_price * (1/100)) 1500
  let survey_cost : ℚ := 1000
  let sdlt := sdlt_calc purchase_price
  let total := legal_cost + survey_cost + sdlt
  if purchase_price = 0 then none
  else some ⟨purchase_price, legal_cost, survey_cost, sdlt,
    purchase_price + total, total / purchase_price⟩

/-- Return value of `calculate_refurb_costs`. -/
structure RefurbCosts where
  scenario : String
  square_feet : ℚ
  rooms : ℚ
  cost_breakdown : List (String × ℚ)
  subtotal : ℚ
  contingency : ℚ
  professional_fees : ℚ
  total_refurb_cost : ℚ
  refurb_cost_psf : ℚ

/-- The loop over `scenario['costs']`: each benchmark key is costed per
square foot / per room / fixed according to its suffix; an unknown key is a
`KeyError` (`none`). -/
def scenarioCosts (sqft rooms : ℚ) : List String → Option (List (String × ℚ) × ℚ)
  | [] => some ([], 0)
  | k :: rest =>
    match cost_benchmarks.lookup k with
    | none => none
    | some v =>
      let cost := if strEndsWith k "_psf" then v * sqft
                  else if strEndsWith k "_per_room" then v * rooms
                  else v
      match scenarioCosts sqft rooms rest with
      | none => none
      | some (cs, sub) => some ((k, cost) :: cs, cost + sub)

/-- The optional `custom_works` loop: quantities priced at the benchmark
unit price, unknown keys silently skipped. -/
def customCosts : List (String × ℚ) → List (String × ℚ) × ℚ
  | [] => ([], 0)
  | (w, q) :: rest =>
    let out := customCosts rest
    match cost_benchmarks.lookup w with
    | some v => ((w, v * q) :: out.1, v * q + out.2)
    | none => out

/-- `calculate_refurb_costs(property_info, scenario_key, custom_works)`;
`none` embeds the `ValueError` for an unknown scenario, a `KeyError` for an
unknown benchmark key, and the `ZeroDivisionError` of
`refurb_cost_psf = total / sqft` when the square footage is 0. -/
def calculate_refurb_costs (pinfo : PropertyInfo) (scenario_key : String)
    (custom_works : Option (List (String × ℚ))) : Option RefurbCosts :=
  match scenarios scenario_key with
  | none => none
  | some scen =>
    let sqft := pinfo.square_feet.getD 1000
    let rooms := pinfo.rooms.getD 3
    match scenarioCosts sqft rooms scen.costs with
    | none => none
    | some (costs, sub1) =>
      let custom := customCosts (custom_works.getD [])
      let subtotal := sub1 + custom.2
      let contingency := subtotal * (10/100)
      let professional_fees :=
        if scenario_key = "full_refurb" ∨ scenario_key = "extension" then
          subtotal * (12/100)
        else subtotal * (5/100)
      let total_refurb := subtotal + contingency + professional_fees
      if sqft = 0 then none
      else some ⟨scenario_key, sqft, rooms, costs ++ custom.1, subtotal,
        contingency, professional_fees, total_refurb, total_refurb / sqft⟩

/-- Return value of `calculate_gdv`. -/
structure GdvResult where
  purchase_price : ℚ
  refurb_cost : ℚ
  gdv : ℚ
  value_uplift : ℚ
  value_uplift_pct : ℚ
  gdv_psf : ℚ

/-- The optional `comparable_data` dictionary. -/
structure ComparableData where
  avg_price_psf : Option ℚ

/-- `calculate_gdv(property_info, refurb_result, comparable_data)`;
`none` embeds the subscript `TypeError` on an unknown scenario, the
`KeyError` on a missing uplift key, and the `ZeroDivisionError` of
`value_uplift_pct = (gdv - price) / price` (price 0) or
`gdv_psf = gdv / sqft` (square footage 0). -/
def calculate_gdv (pinfo : PropertyInfo) (refurb : RefurbCosts)
    (comparable : Option ComparableData) : Option GdvResult :=
  let purchase_price := pinfo.purchase_price.getD 0
  let sqft := pinfo.square_feet.getD 1000
  match scenarios refurb.scenario with
  | none => none
  | some scen =>
    let gdv0 : Option ℚ :=
      if refurb.scenario = "extension" then
        match scen.value_uplift_psf with
        | none => none
        | some psf =>
          some (purchase_price + (pinfo.extension_sqft.getD (sqft * (25/100))) * psf)
      else
        match scen.value_uplift_pct with
        | none => none
        | some pct => some (purchase_price * (1 + pct))
    match gdv0 with
    | none => none
    | some g0 =>
      let gdv :=
        match comparable with
        | some c =>
          match c.avg_price_psf with
          | some cpsf => sqft * cpsf
          | none => g0
        | none => g0
      if purchase_price = 0 ∨ sqft = 0 then none
      else some ⟨purchase_price, refurb.total_refurb_cost, gdv,
        gdv - purchase_price, (gdv - purchase_price) / purchase_price, gdv / sqft⟩

/-- Return value of `calculate_financing_costs`. -/
structure FinanceResult where
  total_project_cost : ℚ
  loan_amount : ℚ
  equity_required : ℚ
  arrangement_fee : ℚ
  exit_fee : ℚ
  legal_costs : ℚ
  interest_cost : ℚ
  total_finance_cost : ℚ
  finance_cost_pct : ℚ

/-- `calculate_financing_costs(purchase_costs, refurb_costs,
custom_finance_settings)`; `none` embeds the `ZeroDivisionError` of
`finance_cost_pct = total / loan_amount` when the loan amount is 0. -/
def calculate_financing_costs (pc : PurchaseCosts) (rc : RefurbCosts)
    (custom : Option FinanceSettings) : Option FinanceResult :=
  let s := custom.getD finance_settings
  let total_project_cost := pc.total_purchase_costs + rc.total_refurb_cost
  let loan_amount := total_project_cost * s.loan_to_cost
  let arrangement_fee := loan_amount * s.arrangement_fee_pct
  let exit_fee := loan_amount * s.exit_fee_pct
  let legal_costs := s.legal_costs
  let interest_cost := loan_amount * s.interest_rate * (s.term_months / 12)
  let total_finance_cost := arrangement_fee + exit_fee + legal_costs + interest_cost
  if loan_amount = 0 then none
  else some ⟨total_project_cost, loan_amount, total_project_cost - loan_amount,
    arrangement_fee, exit_fee, legal_costs, interest_cost, total_finance_cost,
    total_finance_cost / loan_amount⟩

/-- Return value of `calculate_selling_costs`. -/
structure SellingCosts where
  agent_fee : ℚ
  legal_costs : ℚ
  total_selling_costs : ℚ
  selling_costs_pct : ℚ

/-- `calculate_selling_costs(gdv)`; `none` embeds the `ZeroDivisionError`
of `selling_costs_pct = total / gdv` at GDV 0. -/
def calculate_selling_costs (gdv : ℚ) : Option SellingCosts :=
  let agent_fee := gdv * (15/1000)
  let legal_cost := max (gdv * (5/1000)) 1000
  let total := agent_fee + legal_cost
  if gdv = 0 then none
  else some ⟨agent_fee, legal_cost, total, total / gdv⟩

/-- Python's `float('inf')` sentinel next to ordinary numbers. -/
inductive RoiValue where
  | val : ℚ → RoiValue
  | inf : RoiValue
deriving DecidableEq

/-- Return value of `calculate_profit`. -/
structure ProfitResult where
  total_costs : ℚ
  profit : ℚ
  profit_on_cost : ℚ
  profit_on_gdv : ℚ
  roi : RoiValue
  target_profit_achieved : Bool

/-- `calculate_profit(purchase_costs, refurb_costs, gdv, finance_costs,
selling_costs)`: the ROI is the `float('inf')` sentinel when the required
equity is not positive; `none` embeds the `ZeroDivisionError` of
`profit / total_costs` or `profit / gdv`. -/
def calculate_profit (pc : PurchaseCosts) (rc : RefurbCosts) (gdv : ℚ)
    (fc : FinanceResult) (sc : SellingCosts) : Option ProfitResult :=
  let total_costs := pc.total_purchase_costs + rc.total_refurb_cost
    + fc.total_finance_cost + sc.total_selling_costs
  let profit := gdv - total_costs
  if total_costs = 0 ∨ gdv = 0 then none
  else
    let profit_on_cost := profit / total_costs
    let roi := if 0 < fc.equity_required then RoiValue.val (profit / fc.equity_required)
      else RoiValue.inf
    some ⟨total_costs, profit, profit_on_cost, profit / gdv, roi,
      decide ((25/100 : ℚ) ≤ profit_on_cost)⟩

/-- Return value of `calculate_rental_income`. -/
structure RentalResult where
  monthly_rent : ℚ
  annual_rent : ℚ
  management_fee : ℚ
  maintenance : ℚ
  void_cost : ℚ
  insurance : ℚ
  service_charge : ℚ
  ground_rent : ℚ
  total_expenses : ℚ
  net_monthly_rent : ℚ
  net_annual_rent : ℚ
  gross_yield : ℚ
  net_yield : ℚ
  expense_ratio : ℚ

/-- `calculate_rental_income(property_info, gdv_result, rental_market_data)`.
The market data is an optional dictionary; a present non-empty dictionary is
read with `.get('gross_yield')`, so a missing key yields Python `None` and
the multiplication `gdv * gross_yield` raises `TypeError` (embedded as
`none`); an absent or empty dictionary falls back to the default 5% yield.
`none` also embeds the `ZeroDivisionError` of `annual_rent /
total_investment` (zero total investment) and `total_expenses / annual_rent`
(zero annual rent, e.g. GDV 0). -/
def calculate_rental_income (pinfo : PropertyInfo) (gdv_result : GdvResult)
    (rental_market_data : Option (List (String × ℚ))) : Option RentalResult :=
  let sqft := pinfo.square_feet.getD 1000
  let property_type := pinfo.property_type.getD "house"
  let is_leasehold := pinfo.is_leasehold.getD (property_type = "flat")
  let gdv := gdv_result.gdv
  let gy : Option ℚ :=
    match rental_market_data with
    | some l => if l = [] then some (5/100) else l.lookup "gross_yield"
    | none => some (5/100)
  match gy with
  | none => none
  | some gross_yield0 =>
    let annual_rent := gdv * gross_yield0
    let monthly_rent := annual_rent / 12
    let management_fee := annual_rent * (10/100)
    let maintenance := annual_rent * (10/100)
    let void_cost := annual_rent * ((5/10) / 12)
    let insurance := gdv * (5/1000)
    let service_charge := if is_leasehold then sqft * 3 else 0
    let ground_rent := if is_leasehold then (250 : ℚ) else 0
    let total_expenses := management_fee + maintenance + void_cost + insurance
      + service_charge + ground_rent
    let net_annual_rent := annual_rent - total_expenses
    let total_investment := pinfo.purchase_price.getD 0 + gdv_result.refurb_cost
    if total_investment = 0 ∨ annual_rent = 0 then none
    else some ⟨monthly_rent, annual_rent, management_fee, maintenance, void_cost,
      insurance, service_charge, ground_rent, total_expenses,
      net_annual_rent / 12, net_annual_rent, annual_rent / total_investment,
      net_annual_rent / total_investment, total_expenses / annual_rent⟩

/-- One iteration body of the `calculate_max_purchase_price` loop: the full
cost → GDV → finance → selling → profit pipeline evaluated at a trial price
(with `purchase_price` set into the property dictionary copy), yielding
the profit-on-cost together with the GDV and profit results. -/
def pipelineAt (pinfo : PropertyInfo) (scenario_key : String)
    (comparable : Option ComparableData) (custom_fs : Option FinanceSettings)
    (price : ℚ) : Option (ℚ × GdvResult × ProfitResult) :=
  let pinfoc := { pinfo with purchase_price := some price }
  match calculate_purchase_costs price with
  | none => none
  | some pc =>
    match calculate_refurb_costs pinfoc scenario_key none with
    | none => none
    | some rc =>
      match calculate_gdv pinfoc rc comparable with
      | none => none
      | some gr =>
        match calculate_financing_costs pc rc custom_fs with
        | none => none
        | some fc =>
          match calculate_selling_costs gr.gdv with
          | none => none
          | some sc =>
            match calculate_profit pc rc gr.gdv fc sc with
            | none => none
            | some pr => some (pr.profit_on_cost, gr, pr)

/-- Return value of `calculate_max_purchase_price`. -/
structure MaxPriceResult where
  max_purchase_price : ℚ
  target_profit : ℚ
  achieved_profit : ℚ
  gdv : ℚ
  total_costs : ℚ
  profit : ℚ

/-- The 10-iteration bisection loop of `calculate_max_purchase_price`:
`fuel` counts the remaining iterations.  The loop breaks early (returning
the evaluated trial price) when the achieved profit-on-cost is within 0.005
of the target; otherwise it bisects and, after the final iteration, returns
the freshly updated — never evaluated — midpoint paired with the metrics of
the last evaluated price, exactly as the Python loop falls off its
`for` statement. -/
def maxSearchLoop (pinfo : PropertyInfo) (scenario_key : String)
    (comparable : Option ComparableData) (custom_fs : Option FinanceSettings)
    (target : ℚ) : ℕ → ℚ → ℚ → ℚ → Option MaxPriceResult
  | 0, _, _, _ => none
  | fuel + 1, min_price, max_price, current_price =>
    match pipelineAt pinfo scenario_key comparable custom_fs current_price with
    | none => none
    | some (cp, gr, pr) =>
      if |cp - target| < 5/1000 then
        some ⟨current_price, target, cp, gr.gdv, pr.total_costs, pr.profit⟩
      else
        let next :=
          if target < cp then (current_price, max_price, (current_price + max_price) / 2)
          else (min_price, current_price, (current_price + min_price) / 2)
        match fuel with
        | 0 => some ⟨next.2.2, target, cp, gr.gdv, pr.total_costs, pr.profit⟩
        | _ + 1 =>
          maxSearchLoop pinfo scenario_key comparable custom_fs target
            fuel next.1 next.2.1 next.2.2

/-- `calculate_max_purchase_price(property_info, scenario_key, target_profit,
comparable_data, custom_finance_settings)`: bisection on
`[0, 2 * initial_price]` starting from the property's price (or £400 per
square foot when no price is known), capped at 10 iterations. -/
def calculate_max_purchase_price (pinfo : PropertyInfo) (scenario_key : String)
    (target_profit : ℚ) (comparable : Option ComparableData)
    (custom_fs : Option FinanceSettings) : Option MaxPriceResult :=
  let initial_price :=
    match pinfo.purchase_price with
    | some p => p
    | none => (pinfo.square_feet.getD 1000) * 400
  maxSearchLoop pinfo scenario_key comparable custom_fs target_profit
    10 0 (initial_price * 2) initial_price

/-- C7: for every property, registered scenario and custom works, the
refurbishment total is subtotal + contingency + professional fees, with
contingency always 10% of the subtotal and professional fees 12% of the
subtotal for the full-refurbishment and extension scenarios and 5%
otherwise; a 1000 sqft property under the light refurbishment scenario
totals 1000 × £75 × 1.15 = £86,250. -/
theorem claim_C7_refurb :
    (∀ (pinfo : PropertyInfo) (key : String) (cw : Option (List (String × ℚ)))
      (rc : RefurbCosts), calculate_refurb_costs pinfo key cw = some rc →
        rc.contingency = rc.subtotal * (10/100) ∧
        rc.professional_fees = rc.subtotal *
          (if key = "full_refurb" ∨ key = "extension" then 12/100 else 5/100) ∧
        rc.total_refurb_cost = rc.subtotal + rc.contingency + rc.professional_fees) ∧
    (calculate_refurb_costs ⟨none, some 1000, some 3, none, none, none⟩
      "light_refurb" none).map (fun rc => rc.total_refurb_cost) = some 86250 := by
  constructor
  · intro pinfo key cw rc h
    simp only [calculate_refurb_costs] at h
    split at h
    · exact absurd h (by simp)
    · split at h
      · exact absurd h (by simp)
      · split at h
        · exact absurd h (by simp)
        · injection h with h'
          subst h'
          refine ⟨rfl, ?_, rfl⟩
          split_ifs <;> ring
  · simp [calculate_refurb_costs, scenarios, scenarioCosts, cost_benchmarks,
      customCosts, List.lookup,
      show strEndsWith "light_refurb_psf" "_psf" = true from by decide]
    norm_num

/-- C7 witness: the general statement instantiated at the 1000 sqft
light-refurbishment configuration of the spec's end-to-end example. -/
theorem claim_C7_witness :
    ∀ rc : RefurbCosts,
      calculate_refurb_costs ⟨none, some 1000, some 3, none, none, none⟩
        "light_refurb" none = some rc →
        rc.contingency = rc.subtotal * (10/100) ∧
        rc.professional_fees = rc.subtotal *
          (if "light_refurb" = "full_refurb" ∨ "light_refurb" = "extension"
            then 12/100 else 5/100) ∧
        rc.total_refurb_cost = rc.subtotal + rc.contingency + rc.professional_fees :=
  fun rc h => claim_C7_refurb.1 _ "light_refurb" none rc h

/-- C3: false as stated — `calculate_purchase_costs(0)` raises
`ZeroDivisionError` at `transaction_costs_pct = total / purchase_price`
instead of returning a sentinel. -/
theorem claim_C3_counterexample : calculate_purchase_costs 0 = none := by
  simp [calculate_purchase_costs]

/-- C3 (amended): only the ROI stage implements the documented sentinel —
`calculate_profit` yields `float('inf')` whenever the required equity is
not positive.  The other stage calculators raise on degenerate input:
`calculate_purchase_costs` raises `ZeroDivisionError` at purchase price 0,
and `calculate_rental_income` raises `ZeroDivisionError` whenever the GDV
is 0 (the annual rent becomes 0 and `expense_ratio = total_expenses /
annual_rent` divides by zero), rather than returning a default yield. -/
theorem claim_C3_amended :
    (∀ (pc : PurchaseCosts) (rc : RefurbCosts) (gdv : ℚ) (fc : FinanceResult)
      (sc : SellingCosts) (pr : ProfitResult),
        calculate_profit pc rc gdv fc sc = some pr →
        fc.equity_required ≤ 0 → pr.roi = RoiValue.inf) ∧
    calculate_purchase_costs 0 = none ∧
    (∀ (pinfo : PropertyInfo) (gr : GdvResult) (md : Option (List (String × ℚ))),
      gr.gdv = 0 → calculate_rental_income pinfo gr md = none) := by
  refine ⟨?_, by simp [calculate_purchase_costs], ?_⟩
  · intro pc rc gdv fc sc pr h hle
    simp only [calculate_profit] at h
    split at h
    · exact absurd h (by simp)
    · injection h with h'
      subst h'
      simp only
      rw [if_neg (not_lt.2 hle)]
  · intro pinfo gr md h
    simp only [calculate_rental_income]
    rcases md with _ | l
    · simp [h]
    · rcases eq_or_ne l [] with rfl | hl
      · simp [h]
      · simp only [if_neg hl]
        rcases hlk : l.lookup "gross_yield" with _ | gy
        · simp [hlk]
        · simp [hlk, h]

/-- C3 witness: a concrete profit computation with zero required equity
yielding the infinity sentinel, and a concrete rental-income call at GDV 0
raising (embedded `none`). -/
theorem claim_C3_witness :
    (∃ pr, calculate_profit ⟨100, 0, 0, 0, 100, 0⟩ ⟨"x", 1, 1, [], 0, 0, 0, 0, 0⟩ 50
      ⟨100, 100, 0, 0, 0, 0, 0, 0, 0⟩ ⟨0, 0, 0, 0⟩ = some pr ∧
      pr.roi = RoiValue.inf) ∧
    calculate_rental_income ⟨none, none, none, none, none, none⟩
      ⟨0, 0, 0, 0, 0, 0⟩ none = none := by
  constructor
  · have h : calculate_profit ⟨100, 0, 0, 0, 100, 0⟩ ⟨"x", 1, 1, [], 0, 0, 0, 0, 0⟩ 50
        ⟨100, 100, 0, 0, 0, 0, 0, 0, 0⟩ ⟨0, 0, 0, 0⟩ =
        some ⟨100, -50, -1/2, -1, RoiValue.inf, false⟩ := by
      norm_num [calculate_profit]
    exact ⟨_, h, claim_C3_amended.1 _ _ _ _ _ _ h (by norm_num)⟩
  · exact claim_C3_amended.2.2 _ _ none rfl

/-- C10: passing a non-empty `rental_market_data` dictionary that lacks the
`'gross_yield'` key makes `rental_market_data.get('gross_yield')` return
Python `None`, and the multiplication `gdv * gross_yield` raises a
`TypeError` (embedded `none`) — whereas omitting the dictionary entirely
falls back to the 5% default and succeeds on the same property. -/
theorem claim_C10_missing_gross_yield :
    calculate_rental_income ⟨some 100000, some 1000, some 3, none, none, none⟩
      ⟨100000, 86250, 287500, 187500, 15/8, 575/2⟩
      (some [("avg_rent", 1200)]) = none ∧
    (calculate_rental_income ⟨some 100000, some 1000, some 3, none, none, none⟩
      ⟨100000, 86250, 287500, 187500, 15/8, 575/2⟩ none).isSome = true := by
  constructor
  · simp [calculate_rental_income, List.lookup]
  · simp [calculate_rental_income]
    norm_num

/-! ## Mortgage amortization (`scripts/fixed_btr_report_generator.py`)

`calculate_investment_metrics` (lines 295-307) computes
`monthly_mortgage = loan * (r (1+r)^n) / ((1+r)^n - 1)` with
`r = interest_rate / 12` and `n = mortgage_years * 12`; the script
instantiates it only at the hardcoded 5% rate over 25 years.  Generalised
over its three inputs, the formula divides by zero whenever
`(1+r)^n = 1` — in particular at annual rate 0. -/

/-- The inline amortized-monthly-payment computation, generalised over the
loan amount, annual rate and term in years; `none` embeds the
`ZeroDivisionError` when the denominator `(1+r)^n - 1` is zero. -/
def monthlyMortgage (loan_amount annual_rate : ℚ) (mortgage_years : ℕ) : Option ℚ :=
  let monthly_rate := annual_rate / 12
  let num_payments := mortgage_years * 12
  if (1 + monthly_rate) ^ num_payments - 1 = 0 then none
  else some (loan_amount * (monthly_rate * (1 + monthly_rate) ^ num_payments)
    / ((1 + monthly_rate) ^ num_payments - 1))

/-- C9: at annual rate 0 the amortization formula does *not* degrade to
`P / n`: its denominator `(1+0)^n - 1` is zero and the division raises
`ZeroDivisionError` (there is no zero-rate branch in the code). -/
theorem claim_C9_counterexample :
    monthlyMortgage 1200 0 1 = none ∧ (none : Option ℚ) ≠ some (1200 / 12) := by
  constructor
  · norm_num [monthlyMortgage]
  · simp

/-- C9 (amended): for every loan amount and every positive annual rate and
term (covering the code's only instantiation, 5% over 25 years), the
computation succeeds and equals the standard fixed-rate
repayment-mortgage formula; at annual rate 0 the denominator vanishes and
the code would raise `ZeroDivisionError` instead of returning `P / n`. -/
theorem claim_C9_amended (L r : ℚ) (y : ℕ) (hr : 0 < r) (hy : 1 ≤ y) :
    monthlyMortgage L r y =
      some (L * ((r / 12) * (1 + r / 12) ^ (y * 12))
        / ((1 + r / 12) ^ (y * 12) - 1)) := by
  have h1 : (1 : ℚ) < 1 + r / 12 := by linarith
  have h2 : (1 : ℚ) < (1 + r / 12) ^ (y * 12) :=
    one_lt_pow₀ h1 (by omega)
  simp only [monthlyMortgage]
  rw [if_neg (by intro h0; rw [sub_eq_zero] at h0; rw [h0] at h2; exact lt_irrefl 1 h2)]

/-- C9 witness: the amended claim at the spec's own sanity fixture —
£200,000 at 5% over 25 years (300 monthly payments). -/
theorem claim_C9_witness :
    monthlyMortgage 200000 (1/20) 25 =
      some (200000 * ((1/20 / 12) * (1 + 1/20 / 12) ^ (25 * 12))
        / ((1 + 1/20 / 12) ^ (25 * 12) - 1)) :=
  claim_C9_amended 200000 (1/20) 25 (by norm_num) (by norm_num)

/-! ## Amenity scorers

Two call paths score amenities: `calculate_amenity_score` in
`src/components/location_score_algorithm.py` (0-20 scale, default 10), and
`analyze_amenities` in `scripts/btr_report_generator.py` (0-100 scale,
default 50 for an absent or empty dataset but 65 — "Default good score" —
for a non-empty dataset with no row matching the location). -/

/-- `needle` occurs as a substring of `hay`. -/
def hasSubstring (sub : List Char) : List Char → Bool
  | [] => startsWithList [] sub
  | c :: cs => startsWithList (c :: cs) sub || hasSubstring sub cs

/-- Case-insensitive substring containment:
pandas `hay.str.contains(needle, case=False)`. -/
def lowerContains (hay needle : String) : Bool :=
  hasSubstring (needle.toList.map Char.toLower) (hay.toList.map Char.toLower)

/-- One row of the OSM amenities dataframe as read by `analyze_amenities`. -/
structure OsmRow where
  location : String
  category : String

/-- The per-category caps of `analyze_amenities`. -/
def categoryScores : List (String × ℚ) :=
  [("transport", 15), ("food", 10), ("shopping", 10), ("healthcare", 10),
   ("education", 8), ("leisure", 7)]

/-- The matched-data branch of `analyze_amenities`: base 50, plus
`min(2 * count, cap)` per distinct category present in the cap table,
capped at 100. -/
def amenityCategoryScore (rows : List OsmRow) : ℚ :=
  let cats := (rows.map (fun r => r.category)).dedup
  let add := (cats.map (fun c =>
    match categoryScores.lookup c with
    | some cap => min (((rows.filter (fun r => r.category = c)).length : ℚ) * 2) cap
    | none => 0)).sum
  min (50 + add) 100

/-- `analyze_amenities(location, location_data, amenities_df)`: 50 for an
absent or empty dataframe; otherwise rows are matched by case-insensitive
containment of the location name and then of the postcode, a completely
non-matching dataframe scoring the distinct default 65. -/
def analyze_amenities (location postcode : String)
    (amenities_df : Option (List OsmRow)) : ℚ :=
  match amenities_df with
  | none => 50
  | some rows =>
    if rows.length = 0 then 50
    else
      let location_matches := rows.filter (fun r => lowerContains r.location location)
      let relevant :=
        if location_matches.length ≠ 0 then location_matches
        else if postcode ≠ "" then
          rows.filter (fun r => lowerContains r.location postcode)
        else []
      if relevant.length = 0 then 65
      else amenityCategoryScore relevant

/-- One row of the OSM amenities dataframe as read by
`calculate_amenity_score`, with the numeric columns it may consult. -/
structure AmenityRow where
  location : String
  amenity_score : ℚ
  food_score : ℚ
  transport_score : ℚ
  shopping_score : ℚ
  healthcare_score : ℚ

/-- The amenities dataframe for `calculate_amenity_score`: its rows plus
column-presence flags (a dataframe either has a column for all rows or for
none). -/
structure AmenityFrame where
  rows : List AmenityRow
  hasAmenityScore : Bool
  hasFoodScore : Bool
  hasTransportScore : Bool
  hasShoppingScore : Bool
  hasHealthcareScore : Bool

/-- Column mean (pandas `.mean()`). -/
def rowMean (l : List ℚ) : ℚ := l.sum / l.length

/-- `calculate_amenity_score(location_id, amenities_data)` in
`src/components/location_score_algorithm.py`: rows are matched by exact
location equality; no match scores the documented default 10 on the 0-20
scale. -/
def calculate_amenity_score (location_id : String) (d : AmenityFrame) : ℚ :=
  let m := d.rows.filter (fun r => r.location = location_id)
  if m.length = 0 then 10
  else if d.hasAmenityScore then
    min (rowMean (m.map (fun r => r.amenity_score)) / 5) 20
  else
    (if d.hasFoodScore then min (rowMean (m.map (fun r => r.food_score)) / 10) 5 else 0)
    + (if d.hasTransportScore then
        min (rowMean (m.map (fun r => r.transport_score)) / 10) 6 else 0)
    + (if d.hasShoppingScore then
        min (rowMean (m.map (fun r => r.shopping_score)) / 10) 4 else 0)
    + (if d.hasHealthcareScore then
        min (rowMean (m.map (fun r => r.healthcare_score)) / 10) 5 else 0)

/-- C8: false as stated — with a *non-matching* (rather than absent or
empty) dataset the 0-100 amenities path returns 65, not its documented
default 50 (nor the 0-20 path's 10). -/
theorem claim_C8_counterexample :
    analyze_amenities "London" "" (some [⟨"Manchester", "transport"⟩]) = 65 ∧
    (65 : ℚ) ≠ 50 ∧ (65 : ℚ) ≠ 10 := by
  refine ⟨?_, by norm_num, by norm_num⟩
  simp [analyze_amenities,
    show lowerContains "Manchester" "London" = false from by decide]

/-- C8 (amended): with an absent or empty dataset both amenity scorers
return their documented defaults (50 on the 0-100 path, 10 on the 0-20
path), never null and never an exception; but with a non-empty dataset
matched by neither the location name nor the postcode the 0-100 path
(`analyze_amenities`) returns the distinct "default good score" 65, while
the 0-20 path (`calculate_amenity_score`) still returns 10. -/
theorem claim_C8_amended :
    (∀ loc pc : String, analyze_amenities loc pc none = 50) ∧
    (∀ loc pc : String, analyze_amenities loc pc (some []) = 50) ∧
    (∀ (loc pc : String) (rows : List OsmRow), rows ≠ [] →
      (∀ r ∈ rows, lowerContains r.location loc = false) →
      (pc = "" ∨ ∀ r ∈ rows, lowerContains r.location pc = false) →
      analyze_amenities loc pc (some rows) = 65) ∧
    (∀ (locid : String) (d : AmenityFrame),
      d.rows.filter (fun r => r.location = locid) = [] →
      calculate_amenity_score locid d = 10) := by
  refine ⟨fun _ _ => rfl, fun _ _ => rfl, ?_, ?_⟩
  · intro loc pc rows hne hloc hpc
    have hlm : rows.filter (fun r => lowerContains r.location loc) = [] := by
      simp only [List.filter_eq_nil_iff]
      intro r hr
      simp [hloc r hr]
    simp only [analyze_amenities, hlm]
    rw [if_neg (by simpa using hne)]
    simp only [List.length_nil, ne_eq, not_true_eq_false, if_false]
    rcases hpc with rfl | hpc
    · simp
    · rcases eq_or_ne pc "" with rfl | hpcne
      · simp
      · have hpm : rows.filter (fun r => lowerContains r.location pc) = [] := by
          simp only [List.filter_eq_nil_iff]
          intro r hr
          simp [hpc r hr]
        simp [hpcne, hpm]
  · intro locid d h
    simp [calculate_amenity_score, h]

/-- C8 witness: the amended claim instantiated on a concrete non-matching
single-row dataset and a concrete empty frame. -/
theorem claim_C8_witness :
    analyze_amenities "London" "X1" (some [⟨"Manchester", "transport"⟩]) = 65 ∧
    calculate_amenity_score "London" ⟨[], true, true, true, true, true⟩ = 10 := by
  constructor
  · exact claim_C8_amended.2.2.1 "London" "X1" _ (by simp)
      (by intro r hr; simp at hr; subst hr; decide)
      (Or.inr (by intro r hr; simp at hr; subst hr; decide))
  · exact claim_C8_amended.2.2.2 "London" _ rfl

/-! ## Success of the pipeline at positive prices (support for C4) -/

theorem sdlt_calc_nonneg (p : ℚ) (hp : 0 ≤ p) : 0 ≤ sdlt_calc p := by
  rw [sdlt_calc_eq p hp]
  have h1 : 0 ≤ min p (125000:ℚ) := le_min hp (by norm_num)
  have h2 : 0 ≤ max (p - 125000) (0:ℚ) := le_max_right _ _
  have h3 : 0 ≤ max (p - 250000) (0:ℚ) := le_max_right _ _
  have h4 : 0 ≤ max (p - 925000) (0:ℚ) := le_max_right _ _
  have h2' : 0 ≤ min (max (p - 125000) 0) (125000:ℚ) := le_min h2 (by norm_num)
  have h3' : 0 ≤ min (max (p - 250000) 0) (675000:ℚ) := le_min h3 (by norm_num)
  have hb : 0 ≤ bandTax p := by
    have m1 := mul_nonneg (show (0:ℚ) ≤ 2/100 by norm_num) h1
    have m2 := mul_nonneg (show (0:ℚ) ≤ 5/100 by norm_num) h2'
    have m3 := mul_nonneg (show (0:ℚ) ≤ 10/100 by norm_num) h3'
    have m4 := mul_nonneg (show (0:ℚ) ≤ 12/100 by norm_num) h4
    unfold bandTax
    linarith
  have ho : 0 ≤ sdltOverTax p := by
    unfold sdltOverTax
    split_ifs <;> apply mul_nonneg (by norm_num) <;> linarith
  linarith

theorem purchase_some (price : ℚ) (hp : 0 < price) :
    ∃ pc : PurchaseCosts, calculate_purchase_costs price = some pc ∧
      0 < pc.total_purchase_costs := by
  refine ⟨⟨price, max (price * (1/100)) 1500, 1000, sdlt_calc price,
    price + (max (price * (1/100)) 1500 + 1000 + sdlt_calc price),
    (max (price * (1/100)) 1500 + 1000 + sdlt_calc price) / price⟩, ?_, ?_⟩
  · simp [calculate_purchase_costs, hp.ne']
  · have hm : (1500:ℚ) ≤ max (price * (1/100)) 1500 := le_max_right _ _
    have hs := sdlt_calc_nonneg price hp.le
    show 0 < price + (max (price * (1/100)) 1500 + 1000 + sdlt_calc price)
    linarith

/-- The five registered scenario keys. -/
def scenarioKeyList : List String :=
  ["cosmetic_refurb", "light_refurb", "medium_refurb", "full_refurb", "extension"]

theorem refurb_some (pinfo : PropertyInfo) (s r : ℚ)
    (hsq : pinfo.square_feet = some s) (hr : pinfo.rooms = some r) (hs : 0 < s)
    (key : String) (hkey : key ∈ scenarioKeyList) :
    ∃ rc : RefurbCosts, calculate_refurb_costs pinfo key none = some rc ∧
      rc.scenario = key ∧ 0 ≤ rc.total_refurb_cost := by
  have e1 : strEndsWith "painting_decorating_psf" "_psf" = true := by decide
  have e2 : strEndsWith "flooring_psf" "_psf" = true := by decide
  have e3 : strEndsWith "light_refurb_psf" "_psf" = true := by decide
  have e4 : strEndsWith "medium_refurb_psf" "_psf" = true := by decide
  have e5 : strEndsWith "conversion_psf" "_psf" = true := by decide
  have e6 : strEndsWith "loft_extension_psf" "_psf" = true := by decide
  fin_cases hkey <;>
    (simp [calculate_refurb_costs, scenarios, scenarioCosts, cost_benchmarks,
      customCosts, List.lookup, hsq, hr, hs.ne', e1, e2, e3, e4, e5, e6]
     linarith)

theorem gdv_some (pinfo : PropertyInfo) (price s : ℚ)
    (hpp : pinfo.purchase_price = some price) (hsq : pinfo.square_feet = some s)
    (hext : pinfo.extension_sqft = none) (hp : 0 < price) (hs : 0 < s)
    (key : String) (hkey : key ∈ scenarioKeyList) (rc : RefurbCosts)
    (hscen : rc.scenario = key) :
    ∃ gr : GdvResult, calculate_gdv pinfo rc none = some gr ∧
      0 < gr.gdv ∧ gr.refurb_cost = rc.total_refurb_cost := by
  fin_cases hkey <;>
    (simp [calculate_gdv, scenarios, hscen, hpp, hsq, hext, hp.ne', hs.ne']
     linarith)

theorem finance_some (pc : PurchaseCosts) (rc : RefurbCosts)
    (hpc : 0 < pc.total_purchase_costs) (hrc : 0 ≤ rc.total_refurb_cost) :
    ∃ fc : FinanceResult, calculate_financing_costs pc rc none = some fc ∧
      0 ≤ fc.total_finance_cost := by
  have hL : pc.total_purchase_costs + rc.total_refurb_cost ≠ 0 := by
    intro h0
    linarith
  simp [calculate_financing_costs, finance_settings]
  refine ⟨_, ⟨hL, rfl⟩, ?_⟩
  have h5 : (0:ℚ) ≤ (pc.total_purchase_costs + rc.total_refurb_cost) * 100⁻¹ := by
    positivity
  have h6 : (0:ℚ) ≤ (pc.total_purchase_costs + rc.total_refurb_cost) * (14/100) := by
    positivity
  show (0:ℚ) ≤ (pc.total_purchase_costs + rc.total_refurb_cost) * 100⁻¹
    + (pc.total_purchase_costs + rc.total_refurb_cost) * 100⁻¹ + 2000
    + (pc.total_purchase_costs + rc.total_refurb_cost) * (14/100)
  linarith

theorem selling_some (g : ℚ) (hg : 0 < g) :
    ∃ sc : SellingCosts, calculate_selling_costs g = some sc ∧
      0 ≤ sc.total_selling_costs := by
  have hm : (1000:ℚ) ≤ max (g * (5/1000)) 1000 := le_max_right _ _
  simp [calculate_selling_costs, hg.ne']
  linarith

theorem profit_some (pc : PurchaseCosts) (rc : RefurbCosts) (gdv : ℚ)
    (fc : FinanceResult) (sc : SellingCosts) (h1 : 0 < pc.total_purchase_costs)
    (h2 : 0 ≤ rc.total_refurb_cost) (h3 : 0 ≤ fc.total_finance_cost)
    (h4 : 0 ≤ sc.total_selling_costs) (hg : 0 < gdv) :
    ∃ pr : ProfitResult, calculate_profit pc rc gdv fc sc = some pr := by
  have ht : pc.total_purchase_costs + rc.total_refurb_cost + fc.total_finance_cost
      + sc.total_selling_costs ≠ 0 := by linarith
  simp [calculate_profit, ht, hg.ne']

theorem pipelineAt_some (p s r price : ℚ) (key : String)
    (hkey : key ∈ scenarioKeyList) (hp : 0 < price) (hs : 0 < s) :
    ∃ out, pipelineAt ⟨some p, some s, some r, none, none, none⟩
      key none none price = some out := by
  obtain ⟨pc, hpc, hpc2⟩ := purchase_some price hp
  obtain ⟨rc, hrc, hrsc, hrc2⟩ :=
    refurb_some ⟨some price, some s, some r, none, none, none⟩ s r rfl rfl hs key hkey
  obtain ⟨gr, hgr, hgpos, _⟩ :=
    gdv_some ⟨some price, some s, some r, none, none, none⟩ price s rfl rfl rfl
      hp hs key hkey rc hrsc
  obtain ⟨fc, hfc, hfc2⟩ := finance_some pc rc hpc2 hrc2
  obtain ⟨sc2, hsc, hsc2⟩ := selling_some gr.gdv hgpos
  obtain ⟨pr, hpr⟩ := profit_some pc rc gr.gdv fc sc2 hpc2 hrc2 hfc2 hsc2 hgpos
  refine ⟨(pr.profit_on_cost, gr, pr), ?_⟩
  simp only [pipelineAt]
  rw [show ({ (⟨some p, some s, some r, none, none, none⟩ : PropertyInfo) with
    purchase_price := some price } : PropertyInfo) =
    ⟨some price, some s, some r, none, none, none⟩ from rfl]
  simp only [hpc, hrc, hgr, hfc, hsc, hpr]

theorem maxSearchLoop_some (pinfo : PropertyInfo) (key : String) (target : ℚ)
    (hpipe : ∀ price : ℚ, 0 < price →
      ∃ out, pipelineAt pinfo key none none price = some out) :
    ∀ (fuel : ℕ) (mn mx cur : ℚ), fuel ≠ 0 → 0 ≤ mn → 0 < mx → 0 < cur →
      ∃ res, maxSearchLoop pinfo key none none target fuel mn mx cur = some res := by
  intro fuel
  induction fuel with
  | zero => intro mn mx cur h; exact absurd rfl h
  | succ n ih =>
    intro mn mx cur _ hmn hmx hcur
    obtain ⟨⟨cp, gr, pr⟩, hout⟩ := hpipe cur hcur
    rcases lt_or_le |cp - target| (5/1000) with habs | habs
    · exact ⟨_, by simp only [maxSearchLoop, hout, if_pos habs]; rfl⟩
    · cases n with
      | zero =>
        exact ⟨_, by simp only [maxSearchLoop, hout, if_neg (not_lt.2 habs)]; rfl⟩
      | succ m =>
        rcases lt_or_le target cp with hcmp | hcmp
        · obtain ⟨res, hres⟩ := ih cur mx ((cur + mx) / 2) (Nat.succ_ne_zero m)
            hcur.le hmx (by linarith)
          exact ⟨res, by
            simp only [maxSearchLoop, hout, if_neg (not_lt.2 habs), if_pos hcmp]
            exact hres⟩
        · obtain ⟨res, hres⟩ := ih mn cur ((cur + mn) / 2) (Nat.succ_ne_zero m)
            hmn hcur (by linarith)
          exact ⟨res, by
            simp only [maxSearchLoop, hout, if_neg (not_lt.2 habs),
              if_neg (not_lt.2 hcmp)]
            exact hres⟩

/-- C4: false as stated — the search is not total: with a property whose
purchase price is 0, the initial trial price is 0 and the very first
pipeline evaluation raises `ZeroDivisionError` inside
`calculate_purchase_costs`, so `calculate_max_purchase_price` raises
instead of returning a best point. -/
theorem claim_C4_counterexample :
    calculate_max_purchase_price ⟨some 0, some 1000, some 3, none, none, none⟩
      "light_refurb" (1/4) none none = none := by
  rfl

/-- C4 (amended): the function bisects over `[0, 2 × initial guess]`
re-running the full pipeline at each trial price for at most 10 iterations,
and for every positive starting price and floor area (any registered
scenario, any target, default finance settings) it returns a result without
raising; it stops early at an evaluated trial price exactly when that
price's profit-on-cost is within 0.005 of the target; but on
non-convergence the final iteration returns the freshly bisected — never
evaluated — midpoint paired with the metrics of the last evaluated price
(not the best point found), and a zero initial price raises
`ZeroDivisionError` in the first iteration. -/
theorem claim_C4_amended :
    (∀ (p s r target : ℚ) (key : String), key ∈ scenarioKeyList → 0 < p → 0 < s →
      ∃ res, calculate_max_purchase_price ⟨some p, some s, some r, none, none, none⟩
        key target none none = some res) ∧
    (∀ (pinfo : PropertyInfo) (key : String) (comp : Option ComparableData)
      (fs : Option FinanceSettings) (target mn mx cur : ℚ)
      (out : ℚ × GdvResult × ProfitResult) (fuel : ℕ),
      pipelineAt pinfo key comp fs cur = some out →
      |out.1 - target| < 5/1000 → fuel ≠ 0 →
      maxSearchLoop pinfo key comp fs target fuel mn mx cur =
        some ⟨cur, target, out.1, out.2.1.gdv, out.2.2.total_costs, out.2.2.profit⟩) ∧
    (∀ (pinfo : PropertyInfo) (key : String) (comp : Option ComparableData)
      (fs : Option FinanceSettings) (target mn mx cur : ℚ)
      (out : ℚ × GdvResult × ProfitResult),
      pipelineAt pinfo key comp fs cur = some out →
      ¬ |out.1 - target| < 5/1000 →
      maxSearchLoop pinfo key comp fs target 1 mn mx cur =
        some ⟨(if target < out.1 then (cur + mx) / 2 else (cur + mn) / 2), target,
          out.1, out.2.1.gdv, out.2.2.total_costs, out.2.2.profit⟩) := by
  refine ⟨?_, ?_, ?_⟩
  · intro p s r target key hkey hp hs
    have hpipe : ∀ price : ℚ, 0 < price →
        ∃ out, pipelineAt ⟨some p, some s, some r, none, none, none⟩
          key none none price = some out :=
      fun price hprice => pipelineAt_some p s r price key hkey hprice hs
    have h := maxSearchLoop_some _ key target hpipe 10 0 (p * 2) p
      (by norm_num) le_rfl (by linarith) hp
    simpa [calculate_max_purchase_price] using h
  · intro pinfo key comp fs target mn mx cur out fuel hout habs hfuel
    rcases out with ⟨cp, gr, pr⟩
    cases fuel with
    | zero => exact absurd rfl hfuel
    | succ n => simp only [maxSearchLoop, hout, if_pos habs]
  · intro pinfo key comp fs target mn mx cur out hout habs
    rcases out with ⟨cp, gr, pr⟩
    simp only [maxSearchLoop, hout, if_neg habs]
    split_ifs <;> rfl

/-- C4 witness: the no-raise statement instantiated at the spec's
end-to-end fixture (price £250,000, 1000 sqft, light refurbishment, 25%
target). -/
theorem claim_C4_witness :
    ∃ res, calculate_max_purchase_price
      ⟨some 250000, some 1000, some 3, none, none, none⟩
      "light_refurb" (1/4) none none = some res :=
  claim_C4_amended.1 250000 1000 3 (1/4) "light_refurb" (by decide)
    (by norm_num) (by norm_num)
